import Mathlib

/-!
Shallow embedding of `cookbook/agents/app.py`: the `PhidataPoeBot` adapter
between the Poe request/response contract and a Phidata agent, together with
the pgvector container supervisor and the Modal deployment descriptor.

External effects are made explicit: the Phidata agent is an oracle mapping a
user message to the list of text fragments its generation streams, the Docker
client is a record of fallible operations, and each method returns the trace
of external calls it issues alongside its result.
-/

/-- A chat message in a Poe query; the adapter only ever reads its text
content (`request.query[-1].content`). -/
structure ProtocolMessage where
  content : String
deriving Repr, DecidableEq

/-- A Poe query request: `query` is the list of prior messages, most recent
last. -/
structure QueryRequest where
  query : List ProtocolMessage
deriving Repr, DecidableEq

/-- One response chunk (`fp.PartialResponse(text=...)`). -/
structure PartialResponse where
  text : String
deriving Repr, DecidableEq

/-- A Poe settings request; the handler ignores every field. -/
structure SettingsRequest where
  version : Nat
  type : String
deriving Repr, DecidableEq

/-- A Poe settings response; `fp.SettingsResponse()` leaves every field at
its default. -/
structure SettingsResponse where
  server_version : Option Nat
  allow_attachments : Option Bool
  introduction_message : Option String
deriving Repr, DecidableEq

/-- The fixed empty configuration object `fp.SettingsResponse()`. -/
def SettingsResponse.empty : SettingsResponse := ⟨none, none, none⟩

/-- The Phidata agent, abstractly: `run` maps a user message to the sequence
of incremental text fragments the generation yields, and `create_run`
returns a run identifier. -/
structure Agent where
  run : String → List String
  create_run : Nat

/-- The keyword arguments `PhidataPoeBot.__init__` passes to `get_agent`. -/
structure AgentConfig where
  llm_id : String
  calculator : Bool
  ddg_search : Bool
  file_tools : Bool
  finance_tools : Bool
  data_analyst : Bool
  python_assistant : Bool
  research_assistant : Bool
  investment_assistant : Bool
  firecrawl_tools : Bool
deriving Repr, DecidableEq

/-- The fixed configuration the bot constructor uses: model `gpt-4o-mini`
with every capability flag set. -/
def agentConfig : AgentConfig :=
  ⟨"gpt-4o-mini", true, true, true, true, true, true, true, true, true⟩

/-- What `client.containers.get` reports about a container: its status
string. -/
structure ContainerRecord where
  status : String
deriving Repr, DecidableEq

/-- Errors the Docker control-plane client can raise; only
`docker.errors.NotFound` is distinguished by the code. -/
inductive DockerError where
  | notFound
  | apiError (msg : String)
deriving Repr, DecidableEq

/-- The arguments of a `client.containers.run` call. -/
structure RunArgs where
  image : String
  name : String
  detach : Bool
  ports : List (String × Nat)
  environment : List (String × String)
deriving Repr, DecidableEq

/-- The Docker control-plane client, as fallible operations. -/
structure DockerClient where
  getContainer : String → Except DockerError ContainerRecord
  startContainer : String → Except DockerError Unit
  runContainer : RunArgs → Except DockerError Unit

/-- Observable external actions `ensure_pgvector_running` performs. -/
inductive DockerEvent where
  | printed (msg : String)
  | started (name : String)
  | ran (args : RunArgs)
  | slept (seconds : Nat)
deriving Repr, DecidableEq

/-- The fixed `client.containers.run` arguments used to create the pgvector
container. -/
def pgvectorRunArgs : RunArgs :=
  ⟨"phidata/pgvector:16", "pgvector", true, [("5432/tcp", 5532)],
   [("POSTGRES_DB", "ai"), ("POSTGRES_USER", "ai"), ("POSTGRES_PASSWORD", "ai")]⟩

/-- The `try` block of `ensure_pgvector_running`: look the container up by
name, and if it is found but not running, start it and sleep 10 seconds.
Returns the events issued and the error, if any, escaping the block. -/
def ensureTryBlock (client : DockerClient) : List DockerEvent × Option DockerError :=
  match client.getContainer "pgvector" with
  | .error e => ([], some e)
  | .ok container =>
      if container.status ≠ "running" then
        match client.startContainer "pgvector" with
        | .error e =>
            ([.printed "Starting PgVector container...", .started "pgvector"], some e)
        | .ok _ =>
            ([.printed "Starting PgVector container...", .started "pgvector",
              .slept 10], none)
      else ([], none)

/-- `PhidataPoeBot.ensure_pgvector_running`: run the `try` block; if it
escaped with `docker.errors.NotFound`, create and start the container with
the fixed arguments and sleep 15 seconds; any other error propagates. -/
def ensure_pgvector_running (client : DockerClient) :
    List DockerEvent × Option DockerError :=
  match ensureTryBlock client with
  | (evs, some .notFound) =>
      match client.runContainer pgvectorRunArgs with
      | .error e =>
          (evs ++ [.printed "PgVector container not found, creating and starting...",
                   .ran pgvectorRunArgs], some e)
      | .ok _ =>
          (evs ++ [.printed "PgVector container not found, creating and starting...",
                   .ran pgvectorRunArgs, .slept 15], none)
  | (evs, some e) => (evs, some e)
  | (evs, none) => (evs, none)

/-- The bot instance: the agent and the run identifier stored by
`__init__`. -/
structure PhidataPoeBot where
  agent : Agent
  agent_run_id : Nat

/-- `PhidataPoeBot.__init__`: ensure pgvector is running (any escaping error
aborts construction), then build the agent via the external `get_agent`
factory and store `agent.create_run()` as `agent_run_id`. -/
def botInit (client : DockerClient) (get_agent : AgentConfig → Agent) :
    List DockerEvent × Except DockerError PhidataPoeBot :=
  match ensure_pgvector_running client with
  | (evs, some e) => (evs, .error e)
  | (evs, none) =>
      let agent := get_agent agentConfig
      (evs, .ok ⟨agent, agent.create_run⟩)

/-- `PhidataPoeBot.run_agent`: drain the agent generation for the message and
concatenate the fragments, starting from the empty string. -/
def run_agent (bot : PhidataPoeBot) (user_message : String) : String :=
  (bot.agent.run user_message).foldl (fun acc delta => acc ++ delta) ""

/-- The failure mode of `request.query[-1]` on an empty list. -/
inductive AdapterError where
  | indexError
deriving Repr, DecidableEq

/-- `PhidataPoeBot.get_response`: read `request.query[-1].content`, run the
agent on it, and yield one `PartialResponse` with the concatenated text.
Returns the list of messages handed to the agent together with the emitted
chunks, or the index error when the query list is empty. -/
def get_response (bot : PhidataPoeBot) (request : QueryRequest) :
    List String × Except AdapterError (List PartialResponse) :=
  match request.query.getLast? with
  | none => ([], .error .indexError)
  | some lastMsg =>
      let user_message := lastMsg.content
      let response_text := run_agent bot user_message
      ([user_message], .ok [⟨response_text⟩])

/-- `PhidataPoeBot.get_settings`: always returns `fp.SettingsResponse()`. -/
def get_settings (bot : PhidataPoeBot) (setting : SettingsRequest) : SettingsResponse :=
  SettingsResponse.empty

/-- The pinned package list of the Modal image. -/
def REQUIREMENTS : List String :=
  ["fastapi-poe==0.0.48", "docker", "firecrawl", "phidata", "bs4",
   "duckduckgo-search", "exa-py", "nest-asyncio", "openai", "pgvector",
   "psycopg2-binary", "pypdf", "sqlalchemy", "yfinance", "duckdb",
   "pandas", "matplotlib"]

/-- The names of the containers started by a trace of docker events. -/
def startsOf (evs : List DockerEvent) : List String :=
  evs.filterMap (fun e => match e with | .started n => some n | _ => none)

/-- The `containers.run` calls issued by a trace of docker events. -/
def runsOf (evs : List DockerEvent) : List RunArgs :=
  evs.filterMap (fun e => match e with | .ran a => some a | _ => none)

/-- The sleep durations of a trace of docker events. -/
def sleepsOf (evs : List DockerEvent) : List Nat :=
  evs.filterMap (fun e => match e with | .slept n => some n | _ => none)

/-- A concrete agent: it answers every message with the single fragment
"4". -/
def demoAgent : Agent := ⟨fun _ => ["4"], 0⟩

/-- A concrete agent that yields no fragments at all. -/
def silentAgent : Agent := ⟨fun _ => [], 0⟩

/-- A concrete bot around `demoAgent`. -/
def demoBot : PhidataPoeBot := ⟨demoAgent, 0⟩

/-- A concrete bot around `silentAgent`. -/
def silentBot : PhidataPoeBot := ⟨silentAgent, 0⟩

/-- A docker client whose lookup raises NotFound and whose other calls
succeed. -/
def clientNotFound : DockerClient :=
  ⟨fun _ => .error .notFound, fun _ => .ok (), fun _ => .ok ()⟩

/-- A docker client whose lookup finds an exited container and whose other
calls succeed. -/
def clientStopped : DockerClient :=
  ⟨fun _ => .ok ⟨"exited"⟩, fun _ => .ok (), fun _ => .ok ()⟩

/-- A docker client whose lookup finds a running container. -/
def clientRunning : DockerClient :=
  ⟨fun _ => .ok ⟨"running"⟩, fun _ => .ok (), fun _ => .ok ()⟩

/-- A docker client whose lookup finds an exited container but whose start
call raises NotFound (the container disappeared between lookup and start);
creation succeeds. -/
def clientStartVanishes : DockerClient :=
  ⟨fun _ => .ok ⟨"exited"⟩, fun _ => .error .notFound, fun _ => .ok ()⟩

/-- Claim C1: for every request whose message list is non-empty,
`get_response` hands the agent exactly one message, the content of the
last one, and emits exactly one chunk whose text is the in-order
concatenation of all fragments the agent produced. -/
theorem get_response_single_chunk (bot : PhidataPoeBot) (request : QueryRequest)
    (lastMsg : ProtocolMessage) (h : request.query.getLast? = some lastMsg) :
    (get_response bot request).1 = [lastMsg.content] ∧
    (get_response bot request).2 =
      .ok [⟨String.join (bot.agent.run lastMsg.content)⟩] := by
  unfold get_response
  rw [h]
  exact ⟨rfl, rfl⟩

/-- Witness for C1 at the spec scenario: request `[{content: "2+2"}]`, agent
fragments `["4"]`. -/
theorem get_response_single_chunk_witness :
    (get_response demoBot ⟨[⟨"2+2"⟩]⟩).1 = ["2+2"] ∧
    (get_response demoBot ⟨[⟨"2+2"⟩]⟩).2 =
      .ok [⟨String.join (demoBot.agent.run "2+2")⟩] :=
  get_response_single_chunk demoBot ⟨[⟨"2+2"⟩]⟩ ⟨"2+2"⟩ rfl

/-- Claim C3: for a request with an empty message list, `get_response` fails
with the index error before invoking the agent: its agent-call trace is
empty and no chunk is produced. -/
theorem get_response_empty_request_fails (bot : PhidataPoeBot)
    (request : QueryRequest) (h : request.query = []) :
    (get_response bot request).1 = [] ∧
    (get_response bot request).2 = .error .indexError := by
  unfold get_response
  rw [h]
  exact ⟨rfl, rfl⟩

/-- Witness for C3: the empty request against a concrete bot. -/
theorem get_response_empty_request_fails_witness :
    (get_response demoBot ⟨[]⟩).1 = [] ∧
    (get_response demoBot ⟨[]⟩).2 = .error .indexError :=
  get_response_empty_request_fails demoBot ⟨[]⟩ rfl

/-- Claim C7: two requests with the same last message lead `get_response` to
hand the agent exactly the same strings, whatever the earlier messages
are. -/
theorem get_response_only_last_message (bot : PhidataPoeBot)
    (r1 r2 : QueryRequest) (h : r1.query.getLast? = r2.query.getLast?) :
    (get_response bot r1).1 = (get_response bot r2).1 := by
  unfold get_response
  rw [h]

/-- Witness for C7 at the spec scenario: `[{content:"a"},{content:"b, what
is it?"}]` and `[{content:"b, what is it?"}]` produce the same agent-call
trace. -/
theorem get_response_only_last_message_witness :
    (get_response demoBot ⟨[⟨"a"⟩, ⟨"b, what is it?"⟩]⟩).1 =
      (get_response demoBot ⟨[⟨"b, what is it?"⟩]⟩).1 :=
  get_response_only_last_message demoBot ⟨[⟨"a"⟩, ⟨"b, what is it?"⟩]⟩
    ⟨[⟨"b, what is it?"⟩]⟩ rfl

/-- Claim C10: if the agent produces zero fragments on the last message of a
non-empty request, `get_response` still emits exactly one chunk, with empty
text, and does not fail. -/
theorem get_response_empty_generation (bot : PhidataPoeBot)
    (request : QueryRequest) (lastMsg : ProtocolMessage)
    (h : request.query.getLast? = some lastMsg)
    (hrun : bot.agent.run lastMsg.content = []) :
    (get_response bot request).2 = .ok [⟨""⟩] := by
  unfold get_response
  rw [h]
  simp [run_agent, hrun]

/-- Witness for C10: the silent agent on a one-message request. -/
theorem get_response_empty_generation_witness :
    (get_response silentBot ⟨[⟨"hi"⟩]⟩).2 = .ok [⟨""⟩] :=
  get_response_empty_generation silentBot ⟨[⟨"hi"⟩]⟩ ⟨"hi"⟩ rfl rfl

/-- Counterexample for C2 as stated: the lookup returns a container whose
status is not running, yet `ensure_pgvector_running` issues a create call.
When the issued start call itself raises NotFound, the `except` block of the
source catches it and `client.containers.run` is invoked, so the trace holds
both one start call and one create call, refuting the claim's unconditional
"no create call" for the found-but-not-running case. -/
theorem ensure_pgvector_start_notfound_creates :
    clientStartVanishes.getContainer "pgvector" = .ok ⟨"exited"⟩ ∧
    startsOf (ensure_pgvector_running clientStartVanishes).1 = ["pgvector"] ∧
    runsOf (ensure_pgvector_running clientStartVanishes).1 = [pgvectorRunArgs] ∧
    ¬ runsOf (ensure_pgvector_running clientStartVanishes).1 = [] := by
  refine ⟨rfl, ?_, ?_, ?_⟩ <;>
    simp [ensure_pgvector_running, ensureTryBlock, clientStartVanishes,
      startsOf, runsOf]

/-- Claim C2 (amended): three-way case analysis of `ensure_pgvector_running`
on the container lookup. If the lookup raises NotFound, exactly one
create-and-run call is issued, with the fixed name, image, port mapping and
environment, and no start call. If the lookup finds a non-running container
and the issued start call does not itself raise NotFound, exactly one start
call and no create call. If the lookup finds a running container,
neither. -/
theorem ensure_pgvector_three_way (client : DockerClient) :
    (client.getContainer "pgvector" = .error .notFound →
      runsOf (ensure_pgvector_running client).1 = [pgvectorRunArgs] ∧
      startsOf (ensure_pgvector_running client).1 = []) ∧
    (∀ c, client.getContainer "pgvector" = .ok c → c.status ≠ "running" →
      client.startContainer "pgvector" ≠ .error .notFound →
      startsOf (ensure_pgvector_running client).1 = ["pgvector"] ∧
      runsOf (ensure_pgvector_running client).1 = []) ∧
    (∀ c, client.getContainer "pgvector" = .ok c → c.status = "running" →
      startsOf (ensure_pgvector_running client).1 = [] ∧
      runsOf (ensure_pgvector_running client).1 = []) := by
  refine ⟨fun hget => ?_, fun c hget hstat hstart => ?_, fun c hget hstat => ?_⟩
  · cases hrun : client.runContainer pgvectorRunArgs <;>
      simp [ensure_pgvector_running, ensureTryBlock, hget, hrun, runsOf, startsOf]
  · cases hstart2 : client.startContainer "pgvector" with
    | error e =>
        cases e with
        | notFound => exact absurd hstart2 hstart
        | apiError m =>
            simp [ensure_pgvector_running, ensureTryBlock, hget, hstat, hstart2,
              runsOf, startsOf]
    | ok u =>
        simp [ensure_pgvector_running, ensureTryBlock, hget, hstat, hstart2,
          runsOf, startsOf]
  · simp [ensure_pgvector_running, ensureTryBlock, hget, hstat, runsOf, startsOf]

/-- Witness for C2: the three branches at concrete docker clients. -/
theorem ensure_pgvector_three_way_witness :
    (runsOf (ensure_pgvector_running clientNotFound).1 = [pgvectorRunArgs] ∧
      startsOf (ensure_pgvector_running clientNotFound).1 = []) ∧
    (startsOf (ensure_pgvector_running clientStopped).1 = ["pgvector"] ∧
      runsOf (ensure_pgvector_running clientStopped).1 = []) ∧
    (startsOf (ensure_pgvector_running clientRunning).1 = [] ∧
      runsOf (ensure_pgvector_running clientRunning).1 = []) :=
  ⟨(ensure_pgvector_three_way clientNotFound).1 rfl,
   (ensure_pgvector_three_way clientStopped).2.1 ⟨"exited"⟩ rfl
     (by decide) (by simp [clientStopped]),
   (ensure_pgvector_three_way clientRunning).2.2 ⟨"running"⟩ rfl rfl⟩

/-- Claim C4: any control-plane error other than NotFound, whether raised by
the lookup, the start call, or the create call, propagates out of
`ensure_pgvector_running` and aborts `__init__`: `botInit` returns that
error and constructs no bot, issuing no further docker calls. -/
theorem docker_errors_propagate (client : DockerClient)
    (ga : AgentConfig → Agent) (msg : String) :
    (client.getContainer "pgvector" = .error (.apiError msg) →
      ensure_pgvector_running client = ([], some (.apiError msg)) ∧
      (botInit client ga).2 = .error (.apiError msg)) ∧
    (∀ c, client.getContainer "pgvector" = .ok c → c.status ≠ "running" →
      client.startContainer "pgvector" = .error (.apiError msg) →
      (ensure_pgvector_running client).2 = some (.apiError msg) ∧
      runsOf (ensure_pgvector_running client).1 = [] ∧
      (botInit client ga).2 = .error (.apiError msg)) ∧
    (client.getContainer "pgvector" = .error .notFound →
      client.runContainer pgvectorRunArgs = .error (.apiError msg) →
      (ensure_pgvector_running client).2 = some (.apiError msg) ∧
      (botInit client ga).2 = .error (.apiError msg)) := by
  refine ⟨fun hget => ?_, fun c hget hstat hstart => ?_, fun hget hrun => ?_⟩
  · simp [botInit, ensure_pgvector_running, ensureTryBlock, hget]
  · simp [botInit, ensure_pgvector_running, ensureTryBlock, hget, hstat, hstart,
      runsOf]
  · simp [botInit, ensure_pgvector_running, ensureTryBlock, hget, hrun]

/-- Witness for C4: concrete clients failing with an API error at lookup,
start, and create respectively. -/
theorem docker_errors_propagate_witness :
    (ensure_pgvector_running
        ⟨fun _ => .error (.apiError "down"), fun _ => .ok (), fun _ => .ok ()⟩ =
      ([], some (.apiError "down")) ∧
    (botInit ⟨fun _ => .error (.apiError "down"), fun _ => .ok (), fun _ => .ok ()⟩
        (fun _ => demoAgent)).2 = .error (.apiError "down")) ∧
    ((ensure_pgvector_running
        ⟨fun _ => .ok ⟨"exited"⟩, fun _ => .error (.apiError "down"), fun _ => .ok ()⟩).2 =
      some (.apiError "down") ∧
    runsOf (ensure_pgvector_running
        ⟨fun _ => .ok ⟨"exited"⟩, fun _ => .error (.apiError "down"), fun _ => .ok ()⟩).1 = [] ∧
    (botInit ⟨fun _ => .ok ⟨"exited"⟩, fun _ => .error (.apiError "down"), fun _ => .ok ()⟩
        (fun _ => demoAgent)).2 = .error (.apiError "down")) ∧
    ((ensure_pgvector_running
        ⟨fun _ => .error .notFound, fun _ => .ok (), fun _ => .error (.apiError "down")⟩).2 =
      some (.apiError "down") ∧
    (botInit ⟨fun _ => .error .notFound, fun _ => .ok (), fun _ => .error (.apiError "down")⟩
        (fun _ => demoAgent)).2 = .error (.apiError "down")) :=
  ⟨(docker_errors_propagate
      ⟨fun _ => .error (.apiError "down"), fun _ => .ok (), fun _ => .ok ()⟩
      (fun _ => demoAgent) "down").1 rfl,
   (docker_errors_propagate
      ⟨fun _ => .ok ⟨"exited"⟩, fun _ => .error (.apiError "down"), fun _ => .ok ()⟩
      (fun _ => demoAgent) "down").2.1 ⟨"exited"⟩ rfl (by decide) rfl,
   (docker_errors_propagate
      ⟨fun _ => .error .notFound, fun _ => .ok (), fun _ => .error (.apiError "down")⟩
      (fun _ => demoAgent) "down").2.2 rfl rfl⟩

/-- Claim C5: `get_settings` is a constant function: any two settings
requests give equal results, and the result is the fixed empty
configuration object. -/
theorem get_settings_constant (bot : PhidataPoeBot)
    (s1 s2 : SettingsRequest) :
    get_settings bot s1 = get_settings bot s2 ∧
    get_settings bot s1 = SettingsResponse.empty :=
  ⟨rfl, rfl⟩

/-- Counterexample for C6: the pinned package list does not have 18
entries. -/
theorem requirements_not_eighteen : ¬ REQUIREMENTS.length = 18 := by
  decide

/-- Claim C6 (amended): the deployment descriptor's pinned package list for
the container image contains exactly 17 entries. -/
theorem requirements_seventeen : REQUIREMENTS.length = 17 := by
  decide

/-- Claim C8: the found-but-not-running branch of
`ensure_pgvector_running` ends in a single unconditional 10-second sleep,
the not-found branch ends in a single unconditional 15-second sleep, 10 is
strictly less than 15, and the already-running branch issues no events at
all; the full traces show no readiness polling. -/
theorem ensure_pgvector_waits (client : DockerClient) :
    (∀ c, client.getContainer "pgvector" = .ok c → c.status ≠ "running" →
      client.startContainer "pgvector" = .ok () →
      (ensure_pgvector_running client).1 =
        [.printed "Starting PgVector container...", .started "pgvector",
         .slept 10]) ∧
    (client.getContainer "pgvector" = .error .notFound →
      client.runContainer pgvectorRunArgs = .ok () →
      (ensure_pgvector_running client).1 =
        [.printed "PgVector container not found, creating and starting...",
         .ran pgvectorRunArgs, .slept 15]) ∧
    (10 < 15) ∧
    (∀ c, client.getContainer "pgvector" = .ok c → c.status = "running" →
      (ensure_pgvector_running client).1 = []) := by
  refine ⟨fun c hget hstat hstart => ?_, fun hget hrun => ?_, by decide,
    fun c hget hstat => ?_⟩
  · simp [ensure_pgvector_running, ensureTryBlock, hget, hstat, hstart]
  · simp [ensure_pgvector_running, ensureTryBlock, hget, hrun]
  · simp [ensure_pgvector_running, ensureTryBlock, hget, hstat]

/-- Witness for C8: the three branches at concrete docker clients. -/
theorem ensure_pgvector_waits_witness :
    (ensure_pgvector_running clientStopped).1 =
      [.printed "Starting PgVector container...", .started "pgvector",
       .slept 10] ∧
    (ensure_pgvector_running clientNotFound).1 =
      [.printed "PgVector container not found, creating and starting...",
       .ran pgvectorRunArgs, .slept 15] ∧
    (ensure_pgvector_running clientRunning).1 = [] :=
  ⟨(ensure_pgvector_waits clientStopped).1 ⟨"exited"⟩ rfl (by decide) rfl,
   (ensure_pgvector_waits clientNotFound).2.1 rfl rfl,
   (ensure_pgvector_waits clientRunning).2.2.2 ⟨"running"⟩ rfl rfl⟩

/-- Claim C9: `agent_run_id` is assigned exactly once, at construction, as
the value of `create_run` on the freshly built agent, and no later
operation reads it: bots differing only in `agent_run_id` are
indistinguishable to `get_response`, `run_agent` and `get_settings`, none
of which returns an updated bot. -/
theorem agent_run_id_dead_state (client : DockerClient)
    (ga : AgentConfig → Agent) (bot b1 b2 : PhidataPoeBot)
    (hinit : (botInit client ga).2 = .ok bot)
    (hagents : b1.agent = b2.agent) :
    bot.agent_run_id = (ga agentConfig).create_run ∧
    (∀ r, get_response b1 r = get_response b2 r) ∧
    (∀ m, run_agent b1 m = run_agent b2 m) ∧
    (∀ s, get_settings b1 s = get_settings b2 s) := by
  refine ⟨?_, fun r => ?_, fun m => ?_, fun s => rfl⟩
  · unfold botInit at hinit
    cases hens : ensure_pgvector_running client with
    | mk evs err =>
        rw [hens] at hinit
        cases err with
        | some e => exact absurd hinit (by simp)
        | none =>
            simp at hinit
            rw [← hinit]
  · simp [get_response, run_agent, hagents]
  · simp [run_agent, hagents]

/-- Witness for C9: a concrete construction and two bots sharing an agent
but holding different run identifiers. -/
theorem agent_run_id_dead_state_witness :
    (⟨demoAgent, 0⟩ : PhidataPoeBot).agent_run_id = demoAgent.create_run ∧
    get_response ⟨demoAgent, 5⟩ ⟨[⟨"2+2"⟩]⟩ =
      get_response ⟨demoAgent, 99⟩ ⟨[⟨"2+2"⟩]⟩ ∧
    run_agent ⟨demoAgent, 5⟩ "2+2" = run_agent ⟨demoAgent, 99⟩ "2+2" ∧
    get_settings ⟨demoAgent, 5⟩ ⟨1, "query"⟩ =
      get_settings ⟨demoAgent, 99⟩ ⟨1, "query"⟩ :=
  have h := agent_run_id_dead_state clientRunning (fun _ => demoAgent)
    ⟨demoAgent, 0⟩ ⟨demoAgent, 5⟩ ⟨demoAgent, 99⟩ rfl rfl
  ⟨h.1, h.2.1 ⟨[⟨"2+2"⟩]⟩, h.2.2.1 "2+2", h.2.2.2 ⟨1, "query"⟩⟩
